import Mathlib

/-! Shallow embedding of the ExpenseTracker application (src/app.py):
the record data model, the per-user partition of the table, the
Save-Changes reconciliation merge, the undo/redo session history, and the
aggregation layer (year/month summaries and the per-item price trend). -/

/-- A calendar date as carried by the `Date` column (`YYYY-MM-DD`). -/
structure ExpDate where
  year : Nat
  month : Nat
  day : Nat
deriving DecidableEq, Repr

/-- One expense record: the fixed 8-column schema
Date, Category, Item, Shop, PricePaid, Quantity, QuantityUnit, User.
Monetary and quantity values are modelled as exact rationals. -/
structure Record where
  date : ExpDate
  category : String
  item : String
  shop : String
  pricePaid : Rat
  quantity : Rat
  quantityUnit : String
  user : String
deriving DecidableEq, Repr

/-- A data frame is an ordered list of rows. -/
abbrev DataFrame := List Record

/-- app.py line 94: `user_df = df[df["User"] == username].copy()` —
the rows of the full table owned by `username`, in table order. -/
def partitionView (df : DataFrame) (username : String) : DataFrame :=
  df.filter (fun r => r.user == username)

/-- app.py lines 156-157 (Save Changes): drop the user's rows from the
full table, then append the edited partition:
`df = df[df["User"] != username]; df = pd.concat([df, edited_user_df])`.
Note the code appends `edited_user_df` as-is; it does not modify the
`User` column of the appended rows. -/
def reconcile (df : DataFrame) (username : String) (edited : DataFrame) : DataFrame :=
  df.filter (fun r => r.user != username) ++ edited

/-- Modelled from the spec's words (paragraph 4.4 and testable property 2):
the rows of the edited partition with the `User` field forced to `username`.
Present only to compare the spec's claimed reconcile output with the code's. -/
def forceUser (username : String) (rows : DataFrame) : DataFrame :=
  rows.map (fun r => { r with user := username })

/-- Modelled from the spec's words (testable property 2): all rows of the
table with `User != username`, followed by all rows of the edited partition
with `User` forced to `username`. -/
def specReconcile (df : DataFrame) (username : String) (edited : DataFrame) : DataFrame :=
  df.filter (fun r => r.user != username) ++ forceUser username edited

/-- The Streamlit session state relevant to the history feature: the
working partition `df` plus the two snapshot stacks
(`st.session_state.history` and `st.session_state.redo_stack`).
Python appends and pops at the end of a list, so the top of each stack
is its last element. -/
structure SessionState where
  df : DataFrame
  history : List DataFrame
  redoStack : List DataFrame
deriving DecidableEq, Repr

/-- app.py lines 67-69: append a copy of the working partition to the
history stack and clear the redo stack. -/
def save_state (s : SessionState) : SessionState :=
  { s with history := s.history ++ [s.df], redoStack := [] }

/-- app.py lines 71-74: if the history stack is non-empty, append a copy of
the working partition to the redo stack and pop the history top into the
working partition; otherwise do nothing. -/
def undo (s : SessionState) : SessionState :=
  if s.history.isEmpty then s
  else { df := s.history.getLastD []
         history := s.history.dropLast
         redoStack := s.redoStack ++ [s.df] }

/-- app.py lines 76-79: if the redo stack is non-empty, append a copy of
the working partition to the history stack and pop the redo top into the
working partition; otherwise do nothing. -/
def redo (s : SessionState) : SessionState :=
  if s.redoStack.isEmpty then s
  else { df := s.redoStack.getLastD []
         history := s.history ++ [s.df]
         redoStack := s.redoStack.dropLast }

/-- Replacing the working partition with an edited one (the effect on
`st.session_state.df` of a state-mutating edit of the working view). -/
def setDf (s : SessionState) (d : DataFrame) : SessionState :=
  { s with df := d }

/-- All snapshots held by a session: both stacks plus the current working
partition, counted as a multiset. -/
def snapshots (s : SessionState) : Multiset DataFrame :=
  (s.history : Multiset DataFrame) + {s.df} + (s.redoStack : Multiset DataFrame)

/-- app.py line 100: the distinct categories present in the user's
partition (`user_df["Category"].unique()`); only its emptiness matters to
the claims below. -/
def existingCategories (userDf : DataFrame) : List String :=
  (userDf.map Record.category).dedup

/-- app.py lines 101-103: the category text input; when it is empty and
existing categories are available, the selectbox value is used instead. -/
def chosenCategory (input : String) (existing : List String) (selected : String) : String :=
  if input = "" ∧ ¬ existing.isEmpty then selected else input

/-- app.py line 129: `category if category else "Uncategorized"` —
the empty string is falsy in Python. -/
def categoryOrDefault (c : String) : String :=
  if c = "" then "Uncategorized" else c

/-- The new row built by the Add Expense handler, app.py lines 127-136. -/
def newExpenseRow (date : ExpDate) (categoryInput : String) (existing : List String)
    (selected : String) (item : String) (shop : String) (price : Rat) (quantity : Rat)
    (unit : String) (username : String) : Record :=
  { date := date
    category := categoryOrDefault (chosenCategory categoryInput existing selected)
    item := item
    shop := shop
    pricePaid := price
    quantity := quantity
    quantityUnit := unit
    user := username }

/-- The application state the Add Expense handler can touch: the full
table `df`, the persisted backend contents, and the session state. -/
structure AppState where
  fullDf : DataFrame
  backend : DataFrame
  session : SessionState
deriving DecidableEq, Repr

/-- app.py lines 126-139: the Add Expense click appends the new row to the
full table and saves the result; it never calls `save_state` and never
touches `st.session_state.history`, `st.session_state.redo_stack`, or
`st.session_state.df`. -/
def addExpenseClick (a : AppState) (row : Record) : AppState :=
  { a with fullDf := a.fullDf ++ [row], backend := a.fullDf ++ [row] }

/-- app.py lines 209-210: `Quantity.replace(0, 1)` followed by
`PricePerUnit = PricePaid / Quantity`: the divisor is the quantity with an
exact zero replaced by one. -/
def pricePerUnit (price : Rat) (quantity : Rat) : Rat :=
  price / (if quantity = 0 then 1 else quantity)

/-- app.py line 167: `strftime("%B")` — the full English month name. -/
def monthName : Nat → String
  | 1 => "January"
  | 2 => "February"
  | 3 => "March"
  | 4 => "April"
  | 5 => "May"
  | 6 => "June"
  | 7 => "July"
  | 8 => "August"
  | 9 => "September"
  | 10 => "October"
  | 11 => "November"
  | 12 => "December"
  | _ => ""

/-- The order in which pandas yields tuple-valued group keys: lexicographic,
here on the (MonthNum, Month) pairs of app.py line 185. -/
def monthKeyLe (a b : Nat × String) : Prop :=
  a.1 < b.1 ∨ (a.1 = b.1 ∧ a.2 ≤ b.2)

instance : DecidableRel monthKeyLe := fun a b =>
  inferInstanceAs (Decidable (a.1 < b.1 ∨ (a.1 = b.1 ∧ a.2 ≤ b.2)))

instance : IsTotal (Nat × String) monthKeyLe where
  total a b := by
    rcases Nat.lt_trichotomy a.1 b.1 with h | h | h
    · exact Or.inl (Or.inl h)
    · rcases le_total a.2 b.2 with h2 | h2
      · exact Or.inl (Or.inr ⟨h, h2⟩)
      · exact Or.inr (Or.inr ⟨h.symm, h2⟩)
    · exact Or.inr (Or.inl h)

instance : IsTrans (Nat × String) monthKeyLe where
  trans a b c hab hbc := by
    rcases hab with h1 | ⟨h1, h1'⟩ <;> rcases hbc with h2 | ⟨h2, h2'⟩
    · exact Or.inl (h1.trans h2)
    · exact Or.inl (h2 ▸ h1)
    · exact Or.inl (h1 ▸ h2)
    · exact Or.inr ⟨h1.trans h2, h1'.trans h2'⟩

/-- app.py line 185: `year_df.groupby(["MonthNum", "Month"])` — the group
keys are the distinct (month number, month name) pairs of the rows, emitted
by pandas in ascending tuple order.  The de-duplication order is irrelevant
here because the keys are sorted afterwards. -/
def monthKeys (records : DataFrame) : List (Nat × String) :=
  List.insertionSort monthKeyLe
    ((records.map (fun r => (r.date.month, monthName r.date.month))).dedup)

/-- A decimal digit rendered as a character. -/
def digitChar (n : Nat) : Char :=
  Char.ofNat (48 + n % 10)

/-- app.py line 216: `Date.dt.to_period("M").astype(str)` renders a month
period as the zero-padded string `YYYY-MM` (faithful for years up to 9999
and months up to 99; the real data has months 1-12). -/
def yearMonthStr (y m : Nat) : String :=
  ⟨[digitChar (y / 1000), digitChar (y / 100), digitChar (y / 10), digitChar y,
    '-', digitChar (m / 10), digitChar m]⟩

/-- app.py line 217: `item_df.groupby("YearMonth")` — the distinct
`YYYY-MM` keys of the selected item's rows, emitted by pandas in ascending
string order. -/
def trendKeys (records : DataFrame) (item : String) : List String :=
  List.insertionSort (fun a b => a ≤ b)
    (((records.filter (fun r => r.item == item)).map
      (fun r => yearMonthStr r.date.year r.date.month)).dedup)

/-- Sum of the PricePaid column (pandas `.sum()`). -/
def totalPaid (records : DataFrame) : Rat :=
  (records.map Record.pricePaid).sum

/-- Group-by-and-sum of PricePaid along a string dimension — the category
and item breakdowns of app.py lines 175-182 and 191-200. -/
def breakdown (records : DataFrame) (key : Record → String) : List (String × Rat) :=
  (List.insertionSort (fun a b => a ≤ b) ((records.map key).dedup)).map
    (fun k => (k, totalPaid (records.filter (fun r => key r == k))))

/-- app.py line 170: `user_df.groupby("Year")` — the distinct years in
ascending order. -/
def yearKeys (records : DataFrame) : List Nat :=
  List.insertionSort (fun a b => a ≤ b) ((records.map (fun r => r.date.year)).dedup)

/-- One year's expander of the Year → Month summary: the yearly total, the
category and item breakdowns, and the per-month totals. -/
structure YearSection where
  year : Nat
  totalYear : Rat
  categorySplit : List (String × Rat)
  itemSplit : List (String × Rat)
  months : List (Nat × String × Rat)
deriving DecidableEq, Repr

/-- app.py lines 163-203: the Year → Month summary, guarded by
`if not user_df.empty:` (line 164) — it renders nothing when the working
partition is empty. -/
def yearMonthSummary (records : DataFrame) : List YearSection :=
  if records.isEmpty then []
  else (yearKeys records).map (fun y =>
    let yearDf := records.filter (fun r => r.date.year == y)
    { year := y
      totalYear := totalPaid yearDf
      categorySplit := breakdown yearDf Record.category
      itemSplit := breakdown yearDf Record.item
      months := (monthKeys yearDf).map (fun k =>
        (k.1, k.2, totalPaid (yearDf.filter (fun r => r.date.month == k.1)))) })

/-- Mean of a list of rationals (pandas `.mean()`). -/
def listMean (xs : List Rat) : Rat :=
  xs.sum / (xs.length : Rat)

/-- app.py lines 206-217: the per-item price trend, guarded by
`if not user_df.empty:` (line 207) — per-record PricePerUnit with the
zero-quantity replacement, grouped by YearMonth, averaged per group. -/
def priceTrend (records : DataFrame) (item : String) : List (String × Rat) :=
  if records.isEmpty then []
  else (trendKeys records item).map (fun k =>
    (k, listMean (((records.filter (fun r => r.item == item)).filter
          (fun r => yearMonthStr r.date.year r.date.month == k)).map
        (fun r => pricePerUnit r.pricePaid r.quantity))))

/-- A concrete row owned by user "v", used in counterexamples and witnesses. -/
def rowV : Record :=
  { date := ⟨2023, 1, 15⟩, category := "Food", item := "Milk", shop := "A",
    pricePaid := 5, quantity := 2, quantityUnit := "Liter", user := "v" }

/-- A concrete row owned by user "u", used in witnesses. -/
def rowU : Record :=
  { date := ⟨2023, 3, 2⟩, category := "Food", item := "Bread", shop := "B",
    pricePaid := 3, quantity := 1, quantityUnit := "Count", user := "u" }

/-- Forcing the `User` field is the identity on a partition whose rows
already carry that user. -/
lemma forceUser_eq_self (U : String) :
    ∀ (P : DataFrame), (∀ r ∈ P, r.user = U) → forceUser U P = P
  | [], _ => rfl
  | a :: t, h => by
    have ha : a.user = U := h a (List.mem_cons_self a t)
    have ht : forceUser U t = t :=
      forceUser_eq_self U t (fun r hr => h r (List.mem_cons_of_mem a hr))
    have hrec : ({ a with user := U } : Record) = a := by rw [← ha]
    show ({ a with user := U } :: forceUser U t) = a :: t
    rw [hrec, ht]

/-- Claim C1 is false as stated: with table T = [] and user "u", a row of
the edited partition whose `User` field is "v" survives the Save Changes
merge unchanged — the code never forces the `User` field to "u". -/
theorem reconcile_does_not_force_user :
    reconcile [] "u" [rowV] ≠ specReconcile [] "u" [rowV] := by decide

/-- Claim C1, amended: provided every row of the edited partition P already
carries User = U (so forcing the User field is a no-op — the code appends P
verbatim and never rewrites the column), the Save Changes merge contains
exactly the rows of T with User ≠ U plus all rows of P with User forced to
U; with multiplicities, no row of T with User = U survives unless present
in P, and the other users' rows keep their relative order, forming the
initial segment of the result. -/
theorem reconcile_replace_by_owner (T P : DataFrame) (U : String)
    (hP : ∀ r ∈ P, r.user = U) :
    reconcile T U P = specReconcile T U P ∧
    (∀ r : Record, (reconcile T U P).count r
        = (T.filter (fun t => t.user != U)).count r + P.count r) ∧
    (∀ r ∈ T, r.user = U → (r ∈ reconcile T U P ↔ r ∈ P)) ∧
    (reconcile T U P).take (T.filter (fun t => t.user != U)).length
      = T.filter (fun t => t.user != U) := by
  refine ⟨?_, ?_, ?_, ?_⟩
  · unfold reconcile specReconcile
    rw [forceUser_eq_self U P hP]
  · intro r
    unfold reconcile
    rw [List.count_append]
  · intro r hrT hru
    unfold reconcile
    simp [List.mem_append, List.mem_filter, hru]
  · unfold reconcile
    rw [List.take_left]

/-- Witness for the amended claim C1 at a concrete table and partition. -/
theorem reconcile_replace_by_owner_witness :
    reconcile [rowV] "u" [rowU] = specReconcile [rowV] "u" [rowU] :=
  (reconcile_replace_by_owner [rowV] [rowU] "u" (by decide)).1

/-- Claim C2 fails on the code: the Add Expense click appends the new row
to the table and saves, but pushes nothing onto the undo stack —
`save_state` (app.py lines 67-69) is defined yet never called anywhere.
From a fresh session, the mutation happens while the session state,
history stack included, is left exactly as it was. -/
theorem addExpense_no_checkpoint :
    (addExpenseClick ⟨[], [], ⟨[], [], []⟩⟩ rowV).fullDf = [rowV] ∧
    (addExpenseClick ⟨[], [], ⟨[], [], []⟩⟩ rowV).session = ⟨[], [], []⟩ :=
  ⟨rfl, rfl⟩

/-- Claim C3: from state s0, a checkpoint (`save_state`) followed by a
mutation of the working partition to d1 yields s1; `undo` returns the
working partition to s0's, and `redo` then restores s1 exactly — the whole
session state, byte for byte. -/
theorem undo_redo_inverse (s0 : SessionState) (d1 : DataFrame) :
    (undo (setDf (save_state s0) d1)).df = s0.df ∧
    redo (undo (setDf (save_state s0) d1)) = setDf (save_state s0) d1 := by
  simp [undo, redo, save_state, setDf, List.getLastD_concat, List.dropLast_concat]

/-- Claim C4: merging the unedited partition back into the table is a
permutation of the original table — the same rows with the same
multiplicities, possibly reordered. -/
theorem reconcile_partition_roundtrip (T : DataFrame) (U : String) :
    List.Perm (reconcile T U (partitionView T U)) T := by
  unfold reconcile partitionView
  have h := List.filter_append_perm (fun r : Record => r.user != U) T
  simp only [bne, Bool.not_not] at h ⊢
  exact h

/-- Claim C5 is false as stated: for PricePaid = 5 and the fractional
Quantity 1/2 (legal for Kg/Liter units), the code divides by the quantity
itself, giving price-per-unit 10, whereas PricePaid / max(Quantity, 1)
would give 5. -/
theorem pricePerUnit_not_max_guard :
    pricePerUnit 5 (1 / 2) ≠ 5 / max (1 / 2 : Rat) 1 := by
  have h1 : max (1 / 2 : Rat) 1 = 1 := max_eq_right (by norm_num)
  rw [h1, pricePerUnit, if_neg (by norm_num : (1 / 2 : Rat) ≠ 0)]
  norm_num

/-- Claim C5, amended: the divisor is the quantity with an exact zero
replaced by one (`replace(0, 1)`), not max(Quantity, 1); the two agree
whenever the quantity is zero or at least 1 — in particular a record with
Quantity = 0 and PricePaid = 5.00 yields PricePerUnit = 5.00 with no
division error — but for fractional quantities strictly between 0 and 1
the code divides by the quantity itself. -/
theorem pricePerUnit_zero_replaced (price q : Rat) (h : q = 0 ∨ 1 ≤ q) :
    pricePerUnit price q = price / max q 1 := by
  rcases h with rfl | h
  · simp [pricePerUnit]
  · have hne : q ≠ 0 := (lt_of_lt_of_le zero_lt_one h).ne'
    rw [pricePerUnit, if_neg hne, max_eq_left h]

/-- Witness for the amended claim C5 at the zero-quantity input of the
spec's testable property 7. -/
theorem pricePerUnit_zero_replaced_witness :
    pricePerUnit 5 0 = 5 / max (0 : Rat) 1 ∧ pricePerUnit 5 0 = 5 :=
  ⟨pricePerUnit_zero_replaced 5 0 (Or.inl rfl), by norm_num [pricePerUnit]⟩

/-- Claim C7: undo on an empty undo stack and redo on an empty redo stack
are no-ops — the session state (working partition and both stacks) is
returned unchanged, and no error is possible. -/
theorem undo_redo_empty_noop (s : SessionState) :
    (s.history = [] → undo s = s) ∧ (s.redoStack = [] → redo s = s) := by
  constructor <;> intro h <;> simp [undo, redo, h]

/-- Witness for claim C7 at a concrete session state with empty stacks. -/
theorem undo_redo_empty_noop_witness :
    undo ⟨[rowV], [], []⟩ = ⟨[rowV], [], []⟩ ∧
    redo ⟨[rowV], [], []⟩ = ⟨[rowV], [], []⟩ :=
  ⟨(undo_redo_empty_noop ⟨[rowV], [], []⟩).1 rfl,
   (undo_redo_empty_noop ⟨[rowV], [], []⟩).2 rfl⟩

/-- Claim C8: on an empty working partition, the Year → Month summary and
the per-item price trend short-circuit to producing no output. -/
theorem empty_partition_aggregates (item : String) :
    yearMonthSummary [] = [] ∧ priceTrend [] item = [] :=
  ⟨rfl, rfl⟩

/-- Claim C9: when the category text input is empty and the user's
partition offers no existing categories, the stored record's Category
field is the literal "Uncategorized". -/
theorem addExpense_default_category (userDf : DataFrame) (date : ExpDate)
    (input selected item shop : String) (price quantity : Rat) (unit username : String)
    (h1 : input = "") (h2 : existingCategories userDf = []) :
    (newExpenseRow date input (existingCategories userDf) selected item shop price
      quantity unit username).category = "Uncategorized" := by
  subst h1
  simp [newExpenseRow, chosenCategory, categoryOrDefault, h2]

/-- Witness for claim C9 on the empty partition. -/
theorem addExpense_default_category_witness :
    (newExpenseRow ⟨2023, 1, 15⟩ "" (existingCategories []) "x" "Milk" "ShopA" 5 2
      "Liter" "u").category = "Uncategorized" :=
  addExpense_default_category [] ⟨2023, 1, 15⟩ "" "x" "Milk" "ShopA" 5 2 "Liter" "u"
    rfl rfl

/-- Claim C10: on a non-empty source stack, undo and redo preserve the
multiset of snapshots held across the two stacks and the current working
partition — one snapshot moves to the opposite stack, one is installed as
current, nothing is lost or duplicated — and the stack lengths shift by
exactly one. -/
theorem undo_redo_snapshot_conservation (s : SessionState) :
    (s.history ≠ [] →
      snapshots (undo s) = snapshots s ∧
      (undo s).history.length + 1 = s.history.length ∧
      (undo s).redoStack.length = s.redoStack.length + 1) ∧
    (s.redoStack ≠ [] →
      snapshots (redo s) = snapshots s ∧
      (redo s).redoStack.length + 1 = s.redoStack.length ∧
      (redo s).history.length = s.history.length + 1) := by
  obtain ⟨d, H, R⟩ := s
  constructor
  · intro h
    rcases H.eq_nil_or_concat with rfl | ⟨L, b, rfl⟩
    · exact absurd rfl h
    · simp [undo, snapshots, List.concat_eq_append, List.getLastD_concat,
        List.dropLast_concat, ← Multiset.coe_add, Multiset.coe_singleton]
      abel
  · intro h
    rcases R.eq_nil_or_concat with rfl | ⟨L, b, rfl⟩
    · exact absurd rfl h
    · simp [redo, snapshots, List.concat_eq_append, List.getLastD_concat,
        List.dropLast_concat, ← Multiset.coe_add, Multiset.coe_singleton]
      abel

/-- Witness for claim C10 at concrete session states with one snapshot on
the source stack. -/
theorem undo_redo_snapshot_conservation_witness :
    snapshots (undo ⟨[rowV], [[rowU]], []⟩) = snapshots ⟨[rowV], [[rowU]], []⟩ ∧
    snapshots (redo ⟨[rowV], [], [[rowU]]⟩) = snapshots ⟨[rowV], [], [[rowU]]⟩ :=
  ⟨((undo_redo_snapshot_conservation ⟨[rowV], [[rowU]], []⟩).1
      (List.cons_ne_nil _ _)).1,
   ((undo_redo_snapshot_conservation ⟨[rowV], [], [[rowU]]⟩).2
      (List.cons_ne_nil _ _)).1⟩

/-- Comparison of digit characters agrees with comparison of the digits. -/
lemma digitChar_spec : ∀ a : Nat, a < 10 → ∀ b : Nat, b < 10 →
    ((digitChar a < digitChar b ↔ a < b) ∧ (digitChar a = digitChar b ↔ a = b)) := by
  decide

/-- `digitChar` only sees its argument modulo 10. -/
lemma digitChar_mod (x : Nat) : digitChar (x % 10) = digitChar x := by
  unfold digitChar
  rw [Nat.mod_mod_of_dvd x (dvd_refl 10)]

lemma digitChar_lt_iff (x y : Nat) : digitChar x < digitChar y ↔ x % 10 < y % 10 := by
  rw [← digitChar_mod x, ← digitChar_mod y]
  exact (digitChar_spec (x % 10) (Nat.mod_lt x (by norm_num)) (y % 10)
    (Nat.mod_lt y (by norm_num))).1

lemma digitChar_eq_iff (x y : Nat) : digitChar x = digitChar y ↔ x % 10 = y % 10 := by
  rw [← digitChar_mod x, ← digitChar_mod y]
  exact (digitChar_spec (x % 10) (Nat.mod_lt x (by norm_num)) (y % 10)
    (Nat.mod_lt y (by norm_num))).2

/-- One step of lexicographic comparison on character lists. -/
lemma lex_cons_decomp {a b : Char} {l1 l2 : List Char} :
    List.Lex (· < ·) (a :: l1) (b :: l2) ↔ a < b ∨ (a = b ∧ List.Lex (· < ·) l1 l2) := by
  constructor
  · intro h
    cases h with
    | cons h => exact Or.inr ⟨rfl, h⟩
    | rel h => exact Or.inl h
  · rintro (h | ⟨rfl, h⟩)
    · exact List.Lex.rel h
    · exact List.Lex.cons h

/-- On zero-padded `YYYY-MM` strings, string order is chronological order. -/
lemma yearMonthStr_lt_iff (y1 m1 y2 m2 : Nat) (hy1 : y1 ≤ 9999) (hy2 : y2 ≤ 9999)
    (hm1 : m1 ≤ 99) (hm2 : m2 ≤ 99) :
    (yearMonthStr y1 m1 < yearMonthStr y2 m2) ↔ (y1 < y2 ∨ (y1 = y2 ∧ m1 < m2)) := by
  rw [String.lt_iff_toList_lt]
  show List.Lex (· < ·)
    [digitChar (y1 / 1000), digitChar (y1 / 100), digitChar (y1 / 10), digitChar y1,
     '-', digitChar (m1 / 10), digitChar m1]
    [digitChar (y2 / 1000), digitChar (y2 / 100), digitChar (y2 / 10), digitChar y2,
     '-', digitChar (m2 / 10), digitChar m2] ↔ _
  simp only [lex_cons_decomp, digitChar_lt_iff, digitChar_eq_iff, lt_self_iff_false,
    List.Lex.not_nil_right, and_false, or_false, false_or, true_and, and_true,
    eq_self_iff_true, iff_false, not_false_iff]
  have e1 : 1000 * (y1 / 1000 % 10) + 100 * (y1 / 100 % 10) + 10 * (y1 / 10 % 10)
      + y1 % 10 = y1 := by
    have a1 : y1 / 10 / 10 = y1 / 100 := by rw [Nat.div_div_eq_div_mul]
    have a2 : y1 / 100 / 10 = y1 / 1000 := by rw [Nat.div_div_eq_div_mul]
    omega
  have e2 : 1000 * (y2 / 1000 % 10) + 100 * (y2 / 100 % 10) + 10 * (y2 / 10 % 10)
      + y2 % 10 = y2 := by
    have b1 : y2 / 10 / 10 = y2 / 100 := by rw [Nat.div_div_eq_div_mul]
    have b2 : y2 / 100 / 10 = y2 / 1000 := by rw [Nat.div_div_eq_div_mul]
    omega
  have f1 : 10 * (m1 / 10 % 10) + m1 % 10 = m1 := by omega
  have f2 : 10 * (m2 / 10 % 10) + m2 % 10 = m2 := by omega
  omega

/-- Every monthly group key pairs a month number with its own month name. -/
lemma monthKeys_shape (records : DataFrame) :
    ∀ k ∈ monthKeys records, k.2 = monthName k.1 := by
  intro k hk
  unfold monthKeys at hk
  rw [List.mem_insertionSort, List.mem_dedup, List.mem_map] at hk
  obtain ⟨r, hmem, rfl⟩ := hk
  rfl

lemma trendKeys_nodup (records : DataFrame) (item : String) :
    (trendKeys records item).Nodup := by
  unfold trendKeys
  exact ((List.perm_insertionSort _ _).nodup_iff).mpr (List.nodup_dedup _)

/-- Claim C6: the monthly group keys within a year are emitted in strictly
increasing month-number (calendar) order, never month-name order; the
Year-Month trend keys are emitted sorted in ascending string order without
repetition, and on the zero-padded `YYYY-MM` keys (years up to 9999, months
up to 99) that string order coincides exactly with strict chronological
order — so the trend series is strictly chronological. -/
theorem month_ordering_chronological (records : DataFrame) (item : String) :
    List.Pairwise (fun a b : Nat × String => a.1 < b.1) (monthKeys records) ∧
    List.Sorted (fun a b : String => a ≤ b) (trendKeys records item) ∧
    (trendKeys records item).Nodup ∧
    (∀ y1 m1 y2 m2 : Nat, y1 ≤ 9999 → y2 ≤ 9999 → m1 ≤ 99 → m2 ≤ 99 →
      (yearMonthStr y1 m1 < yearMonthStr y2 m2 ↔ (y1 < y2 ∨ (y1 = y2 ∧ m1 < m2)))) := by
  refine ⟨?_, ?_, ?_, ?_⟩
  · have hsorted : List.Pairwise monthKeyLe (monthKeys records) :=
      List.sorted_insertionSort monthKeyLe _
    have hnd : (monthKeys records).Nodup := by
      unfold monthKeys
      exact ((List.perm_insertionSort _ _).nodup_iff).mpr (List.nodup_dedup _)
    refine List.Pairwise.imp_of_mem ?_ (hsorted.and hnd)
    intro a b ha hb hab
    obtain ⟨hle, hne⟩ := hab
    have h2a := monthKeys_shape records a ha
    have h2b := monthKeys_shape records b hb
    unfold monthKeyLe at hle
    rcases hle with h | ⟨heq, _⟩
    · exact h
    · exact absurd (Prod.ext heq (by rw [h2a, h2b, heq])) hne
  · exact List.sorted_insertionSort _ _
  · exact trendKeys_nodup records item
  · intro y1 m1 y2 m2 hy1 hy2 hm1 hm2
    exact yearMonthStr_lt_iff y1 m1 y2 m2 hy1 hy2 hm1 hm2

/-- Witness for claim C6: January 2023 sorts before March 2023 in the key
order the trend uses, i.e. chronologically and not alphabetically. -/
theorem month_ordering_chronological_witness :
    yearMonthStr 2023 1 < yearMonthStr 2023 3 :=
  ((month_ordering_chronological [] "").2.2.2 2023 1 2023 3 (by norm_num) (by norm_num)
    (by norm_num) (by norm_num)).mpr (Or.inr ⟨rfl, by norm_num⟩)
